import Mathlib

/-!
Verification development for the isectech-proxy scan service.

The definitions below are a shallow embedding of the scan orchestration code
in src/server.js (the quick/advanced scanner variant) and of the heuristic
generateFindings engine from the simple-heuristic variant in the same file.
Network effects (axios calls, the header probe, the SSL Labs poll responses)
are modelled as explicit inputs: each settled promise outcome, each poll
response and each probe result is a parameter of the corresponding function,
and the rest of the computation is translated statement by statement.
JavaScript truthiness on string-or-undefined values and the behaviour of
Promise.allSettled are modelled explicitly where the code relies on them.
-/

namespace ISectech

/-- Unified finding record with the fields severity, title and fix used by
every mapper in server.js. -/
structure Finding where
  severity : String
  title : String
  fix : String
deriving DecidableEq, Repr

/-- Truthiness of a JavaScript string-or-undefined value: undefined and the
empty string are falsy, every other string is truthy. -/
def jsTruthy : Option String → Bool
  | none => false
  | some s => s != ""

/-- The JavaScript expression v || d for a string-or-undefined v: the default
d is used when v is undefined or the empty string. -/
def jsOrStr : Option String → String → String
  | none, d => d
  | some s, d => if s = "" then d else s

/-- ASCII lowercasing of a string, modelling String.prototype.toLowerCase as
used on header names (all header names involved are ASCII). -/
def lowerStr (s : String) : String := ⟨s.data.map Char.toLower⟩

/-- Lowercases every key of a header entry list, as done by the
Object.fromEntries(Object.entries(headers).map(...)) line of
basicHeaderRules. -/
def lowerKeys (headers : List (String × String)) : List (String × String) :=
  headers.map fun kv => (lowerStr kv.1, kv.2)

/-- Property lookup on a JavaScript object built by Object.fromEntries: a
later entry with the same key overwrites an earlier one, so the lookup
returns the last binding for the key. -/
def jsLookup (entries : List (String × String)) (k : String) : Option String :=
  entries.reverse.lookup k

/-- tidyHost from server.js: strips a leading http:// or https:// scheme,
case-insensitively, and then everything from the first slash onwards. -/
def tidyHost (raw : String) : String :=
  let cs := raw.data
  let low := cs.map Char.toLower
  let rest :=
    if low.take 8 = "https://".data then cs.drop 8
    else if low.take 7 = "http://".data then cs.drop 7
    else cs
  ⟨rest.takeWhile (fun c => c != '/')⟩

/-- The fallback finding basicHeaderRules emits when no header rule fired. -/
def noIssuesFinding (raw : String) : Finding :=
  ⟨"low", "No obvious header issues for " ++ tidyHost raw,
   "Run advanced scan for deeper checks."⟩

/-- basicHeaderRules from server.js: lowercases the header names, checks the
three protective headers and the Server banner in fixed order, and falls back
to a single low finding when nothing fired. -/
def basicHeaderRules (raw : String) (headers : List (String × String)) : List Finding :=
  let h := fun k => jsLookup (lowerKeys headers) k
  let list :=
    (if jsTruthy (h "strict-transport-security") then [] else
      [⟨"medium", "Missing HSTS", "Add Strict-Transport-Security."⟩]) ++
    (if jsTruthy (h "content-security-policy") then [] else
      [⟨"medium", "Missing CSP", "Add Content-Security-Policy."⟩]) ++
    (if jsTruthy (h "x-frame-options") then [] else
      [⟨"low", "Missing X-Frame-Options", "Add SAMEORIGIN or DENY."⟩]) ++
    (if jsTruthy (h "server") then
      [⟨"low", "Server banner: " ++ jsOrStr (h "server") "",
        "Remove or obfuscate Server header."⟩]
     else [])
  if list = [] then [noIssuesFinding raw] else list

/-- gradeToSeverity from server.js. The argument is a possibly-undefined
grade string; the JavaScript includes test matches undefined against neither
list, so an undefined grade falls through to high. -/
def gradeToSeverity (g : Option String) : String :=
  if g = some "A+" ∨ g = some "A" then "low"
  else if g = some "B" ∨ g = some "C" then "medium"
  else "high"

/-- Payload shape consumed by mapSecurityHeaders: overall grade plus the
lists of missing and partially configured headers, each possibly absent. The
weakHdrs field models the payload field the provider names partial. -/
structure SecHeadersData where
  grade : Option String
  missing : Option (List String)
  weakHdrs : Option (List String)
deriving DecidableEq, Repr

/-- mapSecurityHeaders from server.js. -/
def mapSecurityHeaders (d : SecHeadersData) : List Finding :=
  (if jsTruthy d.grade then
    [⟨gradeToSeverity d.grade, "SecurityHeaders grade " ++ jsOrStr d.grade "",
      "Add or strengthen headers to improve grade."⟩]
   else []) ++
  ((d.missing.getD []).map fun h =>
    ⟨"medium", "Missing " ++ h ++ " header", "Add " ++ h⟩) ++
  ((d.weakHdrs.getD []).map fun h =>
    ⟨"low", h ++ " header weak", "Harden " ++ h⟩)

/-- Certificate block of an SSL Labs endpoint: expiry timestamp in epoch
milliseconds, possibly absent. -/
structure SslCert where
  notAfter : Option Int
deriving DecidableEq, Repr

/-- Details block of an SSL Labs endpoint. -/
structure SslDetails where
  cert : Option SslCert
deriving DecidableEq, Repr

/-- One SSL Labs endpoint: a letter grade and optional details. -/
structure SslEndpoint where
  grade : Option String
  details : Option SslDetails
deriving DecidableEq, Repr

/-- SSL Labs analyze payload: a status enum, an optional status message and
an optional endpoint list. -/
structure SslData where
  status : Option String
  statusMessage : Option String
  endpoints : Option (List SslEndpoint)
deriving DecidableEq, Repr

/-- Math.round over exact rational arithmetic: floor of the argument plus one
half, which is the JavaScript rounding rule including its behaviour on
negative inputs and ties. -/
def jsRound (q : ℚ) : ℤ := ⌊q + 1/2⌋

/-- The day computation of mapSsl: Math.round of the difference between the
expiry timestamp and the current time, both scaled from milliseconds to
seconds and then divided by 86400 seconds per day. -/
def certExpiryDays (notAfter now : Int) : Int :=
  jsRound (((notAfter : ℚ) / 1000 - (now : ℚ) / 1000) / 86400)

/-- The TLS grade finding emitted by mapSsl. -/
def sslGradeFinding (g : String) : Finding :=
  ⟨gradeToSeverity (some g), "TLS grade " ++ g,
   "Upgrade weak ciphers / protocols, enable HSTS."⟩

/-- The certificate expiry finding emitted by mapSsl, with the rounded day
count interpolated into the title. -/
def certExpiryFinding (days : Int) : Finding :=
  ⟨"medium", "TLS cert expires in " ++ toString days ++ " days",
   "Renew certificate."⟩

/-- mapSsl from server.js. The endpoints guard mirrors the JavaScript
r.endpoints && r.endpoints[0] test (an empty array is truthy but has no first
element), the grade defaults to F when absent or empty, and the expiry branch
is guarded by the truthiness of notAfter (a zero timestamp is falsy) and by
the rounded day count being below 30. -/
def mapSsl (now : Int) (r : SslData) : List Finding :=
  match (r.endpoints.getD []).head? with
  | none => []
  | some ep =>
    let g := jsOrStr ep.grade "F"
    let base := [sslGradeFinding g]
    match ep.details with
    | none => base
    | some det =>
      match det.cert with
      | none => base
      | some c =>
        match c.notAfter with
        | none => base
        | some na =>
          if na = 0 then base
          else
            let days := certExpiryDays na now
            if days < 30 then base ++ [certExpiryFinding days] else base

/-- Shodan host payload: open ports, hostnames and the textual IP. -/
structure ShodanData where
  ports : Option (List Int)
  hostnames : Option (List String)
  ip_str : Option String
deriving DecidableEq, Repr

/-- The JavaScript TypeError raised when mapShodan dereferences the ports
field of an undefined argument. -/
def typeErrorUndefinedPorts : String :=
  "TypeError: cannot read properties of undefined (reading ports)"

/-- mapShodan from server.js, applied to a possibly-undefined data value.
When the argument is undefined the property access d.ports throws, which the
model captures as an error value; otherwise one finding per open port is
produced, high for ports 22 and 3389 and medium for the rest. -/
def mapShodan : Option ShodanData → Except String (List Finding)
  | none => .error typeErrorUndefinedPorts
  | some d =>
    match d.ports with
    | none => .ok []
    | some ps => .ok (ps.map fun p =>
        ⟨if p = 22 ∨ p = 3389 then "high" else "medium",
         "Port " ++ toString p ++ " open (" ++
           jsOrStr (d.hostnames.getD []).head? (jsOrStr d.ip_str "undefined") ++ ")",
         "Restrict access or close the service if not needed."⟩)

/-- Result of the header probe performed by getHeaderSnapshot: on success the
response status and header list, on any transport failure the error code. -/
inductive Snapshot where
  | ok (status : Int) (headers : List (String × String))
  | err (code : String)
deriving DecidableEq, Repr

/-- getHeaderSnapshot from server.js, over an explicit transport outcome. A
successful response contributes its status and header list verbatim; no case
normalization of header names happens at this construction point. A transport
failure is absorbed into an error snapshot and never rethrown. -/
def getHeaderSnapshot : Except String (Int × List (String × String)) → Snapshot
  | .ok sh => .ok sh.1 sh.2
  | .error e => .err e

/-- The single high finding emitted when the probe failed. -/
def unreachableFinding (code : String) : Finding :=
  ⟨"high", "Unreachable: " ++ code, "Check DNS / firewall."⟩

/-- The probe-then-heuristics step shared by runQuickScan and the fallback
branch of runAdvancedScan. -/
def snapFindings (raw : String) : Snapshot → List Finding
  | .err e => [unreachableFinding e]
  | .ok _ headers => basicHeaderRules raw headers

/-- runQuickScan from server.js, over the probe outcome for the target. -/
def runQuickScan (raw : String) (snap : Snapshot) : List Finding :=
  snapFindings raw snap

/-- Outcome of one entry of Promise.allSettled: fulfilled with a value, or
rejected. -/
inductive Settled (α : Type) where
  | fulfilled (value : α)
  | rejected
deriving DecidableEq, Repr

/-- Ambient configuration read by runAdvancedScan: the optional Shodan
credential taken from the environment. -/
structure Config where
  SHODAN_KEY : Option String
deriving DecidableEq, Repr

/-- The third allSettled slot of runAdvancedScan. With a truthy key the slot
reflects the network call outcome and a fulfilled response carries a data
field. With a falsy or absent key the code supplies
Promise.resolve of the object with the field status set to rejected;
Promise.allSettled reports that promise as FULFILLED, and the fulfilled value
has no data field, which the model captures as fulfilled none. -/
def shodanSettled (cfg : Config) (net : Settled ShodanData) : Settled (Option ShodanData) :=
  if jsTruthy cfg.SHODAN_KEY then
    match net with
    | .fulfilled d => .fulfilled (some d)
    | .rejected => .rejected
  else .fulfilled none

/-- runAdvancedScan from server.js, over the settled outcomes of the three
adapter calls and the probe outcome used by the fallback branch. Fulfilled
adapters contribute their mapped findings in the fixed order header grading,
TLS grading, Shodan; rejected adapters are skipped. The Shodan contribution
is an Except because mapShodan throws on an undefined data field, and that
exception propagates out of the whole function. When the merged list is empty
the code falls back to a fresh probe run through the heuristic rules, or to a
single unreachable finding when that probe fails. -/
def runAdvancedScan (now : Int) (cfg : Config) (sh : Settled SecHeadersData)
    (ssl : Settled SslData) (shdNet : Settled ShodanData) (snap : Snapshot)
    (raw : String) : Except String (List Finding) :=
  let f1 := match sh with
    | .fulfilled d => mapSecurityHeaders d
    | .rejected => []
  let f2 := match ssl with
    | .fulfilled d => mapSsl now d
    | .rejected => []
  match (match shodanSettled cfg shdNet with
         | .fulfilled od => mapShodan od
         | .rejected => .ok []) with
  | .error e => .error e
  | .ok f3 =>
    let findings := f1 ++ f2 ++ f3
    .ok (if findings = [] then snapFindings raw snap else findings)

/-- The scan dispatch of the POST handler: the full profile runs
runAdvancedScan, every other profile value runs runQuickScan. The raw
argument stands for the already trimmed target string. -/
def scan (now : Int) (cfg : Config) (raw : String) (profile : String)
    (sh : Settled SecHeadersData) (ssl : Settled SslData)
    (shdNet : Settled ShodanData) (snap : Snapshot) : Except String (List Finding) :=
  if profile = "full" then runAdvancedScan now cfg sh ssl shdNet snap raw
  else .ok (runQuickScan raw snap)

/-- Failure modes of sslLabsScan: a remote ERROR or DNS status with its
message, or exhaustion of the attempt budget. -/
inductive SslErr where
  | remote (msg : String)
  | timedOut
deriving DecidableEq, Repr

/-- The statusMessage || default fallback of the SSL Labs error path. -/
def sslStatusMessageOr (d : SslData) : String :=
  jsOrStr d.statusMessage "SSL Labs error"

/-- A poll response that leaves the loop running: neither READY nor one of
the two error statuses. -/
def isPendingStatus (d : SslData) : Bool :=
  d.status != some "READY" && d.status != some "ERROR" && d.status != some "DNS"

/-- The poll loop of sslLabsScan. The index i is the current loop iteration,
the fuel is the number of remaining iterations (12 at the top call, matching
the for loop bound), resp gives the payload of each poll, and the second
component of the result counts how many polls were issued before the loop
ended. Exhausted fuel is the timed out throw after the loop. -/
def sslLabsLoop (resp : Nat → SslData) (i : Nat) : Nat → Except SslErr SslData × Nat
  | 0 => (.error .timedOut, 0)
  | f + 1 =>
    let d := resp i
    if d.status = some "READY" then (.ok d, 1)
    else if d.status = some "ERROR" ∨ d.status = some "DNS" then
      (.error (.remote (sslStatusMessageOr d)), 1)
    else
      let r := sslLabsLoop resp (i + 1) f
      (r.1, r.2 + 1)

/-- sslLabsScan from server.js: the poll loop entered at iteration 0 with the
attempt budget of 12. -/
def sslLabsScan (resp : Nat → SslData) : Except SslErr SslData × Nat :=
  sslLabsLoop resp 0 12

/-- The components of a Node url.parse result used by generateFindings:
protocol (with trailing colon), hostname and port, each possibly null. -/
structure ParsedUrl where
  protocol : Option String
  hostname : Option String
  port : Option String
deriving DecidableEq, Repr

/-- Splits a character list at every dot, keeping empty groups. -/
def splitDots : List Char → List (List Char)
  | [] => [[]]
  | c :: cs =>
    let r := splitDots cs
    if c = '.' then [] :: r
    else
      match r with
      | [] => [[c]]
      | g :: gs => (c :: g) :: gs

/-- Decimal value of a digit list. -/
def decNat (cs : List Char) : Nat :=
  cs.foldl (fun a c => a * 10 + (c.toNat - 48)) 0

/-- The IPv4 side of Node net.isIP: four dot-separated decimal octets in the
range 0 to 255 without leading zeros. IPv6 literals are not modelled; no
hostname reaching this call site in the properties below is an IPv6 literal. -/
def isIPv4 (s : String) : Bool :=
  let parts := splitDots s.data
  decide (parts.length = 4) && parts.all fun p =>
    decide (0 < p.length) && decide (p.length ≤ 3) && p.all Char.isDigit &&
    (decide (p = ['0']) || !(p.take 1 == ['0'])) && decide (decNat p ≤ 255)

/-- The high finding of the HTTP rule of generateFindings. -/
def httpFinding : Finding :=
  ⟨"high", "Target served over HTTP (unencrypted)",
   "Redirect to HTTPS and install a valid TLS certificate."⟩

/-- The medium finding of the raw IP rule of generateFindings. -/
def ipFinding : Finding :=
  ⟨"medium", "Target is an IP address (possible direct server exposure)",
   "Use a hostname behind reverse proxy/CDN if possible."⟩

/-- The low finding of the default port 80 rule of generateFindings. -/
def port80Finding : Finding :=
  ⟨"low", "Default port 80 detected",
   "Close port 80 or redirect traffic to 443."⟩

/-- The low finding of the CIDR rule of generateFindings. -/
def cidrFinding : Finding :=
  ⟨"low", "CIDR / range provided - large scope scan",
   "Confirm you have permission to scan the whole range."⟩

/-- String.prototype.trim over the character list. -/
def trimStr (s : String) : String :=
  ⟨((s.data.dropWhile Char.isWhitespace).reverse.dropWhile Char.isWhitespace).reverse⟩

/-- The first whitespace-delimited token, modelling split on whitespace
followed by taking the first element of an already trimmed string. -/
def firstToken (s : String) : String :=
  ⟨s.data.takeWhile (fun c => !c.isWhitespace)⟩

/-- The trailing slash-digits test of generateFindings. -/
def isCIDRsuffix (s : String) : Bool :=
  let r := s.data.reverse
  decide (0 < (r.takeWhile Char.isDigit).length) &&
    ((r.drop (r.takeWhile Char.isDigit).length).take 1 == ['/'])

/-- The fallback finding of generateFindings. -/
def noHeuristicFinding (name : String) : Finding :=
  ⟨"low", "No heuristic issues for " ++ name,
   "Run a full scanner (OWASP ZAP, Nmap, etc.) for deeper checks."⟩

/-- The four rule branches of generateFindings in their fixed source order.
The parsed argument stands for the Node url.parse result on the first token
of the trimmed target, with scheme:// prepended when the token does not start
with http; the parse itself is a Node library call and is passed in. -/
def genRuleFindings (target : String) (p : ParsedUrl) : List Finding :=
  (if p.protocol = some "http:" then [httpFinding] else []) ++
  (if (match p.hostname with | some hn => isIPv4 hn | none => false) = true
   then [ipFinding] else []) ++
  (if p.port = some "80" ∨ (jsTruthy p.port = false ∧ p.protocol = some "http:")
   then [port80Finding] else []) ++
  (if isCIDRsuffix (firstToken (trimStr target)) = true then [cidrFinding] else [])

/-- generateFindings from the simple-heuristic variant: the fixed rule table
followed by the guaranteed fallback finding when no rule fired. -/
def generateFindings (target : String) (p : ParsedUrl) : List Finding :=
  if genRuleFindings target p = [] then
    [noHeuristicFinding (jsOrStr p.hostname (firstToken (trimStr target)))]
  else genRuleFindings target p

/-- A header-grading payload carrying just a B grade, used as a concrete
instance below. -/
def shGradeB : SecHeadersData := ⟨some "B", none, none⟩

/-- An SSL Labs endpoint whose certificate expires 29.75 days after epoch. -/
def ep2975 : SslEndpoint := ⟨some "A", some ⟨some ⟨some 2570400000⟩⟩⟩

/-- A pending SSL Labs poll payload. -/
def pendingSslData : SslData := ⟨some "IN_PROGRESS", none, none⟩

/-- A READY SSL Labs poll payload. -/
def readySslData : SslData := ⟨some "READY", none, none⟩

/-- A poll response sequence that is pending once and then READY. -/
def pollRespEx : Nat → SslData := fun i => if i = 0 then pendingSslData else readySslData

/-- A parse result for the target https://example.com:80. -/
def httpsPort80 : ParsedUrl := ⟨some "https:", some "example.com", some "80"⟩

/-- A header list with all three protective headers present and no Server
banner, one of them sent with non-lowercase casing. -/
def goodHeaders : List (String × String) :=
  [("strict-transport-security", "max-age=63072000"),
   ("content-security-policy", "default-src https:"),
   ("X-Frame-Options", "DENY")]

/-! Shared helper lemmas. -/

/-- A fallback of the shape used by both rule engines is never empty. -/
theorem ite_nil_ne_nil {α : Type} [DecidableEq α] (l : List α) (x : α) :
    (if l = [] then [x] else l) ≠ [] := by
  split <;> simp_all

/-- The heuristic header engine never returns the empty list: when no rule
fires the fallback singleton is returned. -/
theorem basicHeaderRules_ne_nil (raw : String) (hs : List (String × String)) :
    basicHeaderRules raw hs ≠ [] := by
  unfold basicHeaderRules
  exact ite_nil_ne_nil _ _

/-- The probe step always yields at least one finding. -/
theorem snapFindings_ne_nil (raw : String) (snap : Snapshot) :
    snapFindings raw snap ≠ [] := by
  cases snap with
  | ok st hs => exact basicHeaderRules_ne_nil raw hs
  | err e => simp [snapFindings]

/-- mapShodan never throws on a defined payload. -/
theorem mapShodan_some_ok (d : ShodanData) : ∃ fs, mapShodan (some d) = .ok fs := by
  simp only [mapShodan]
  cases h : d.ports
  · exact ⟨[], rfl⟩
  · exact ⟨_, rfl⟩

/-- Math.round of a negative quantity is at most zero. -/
theorem jsRound_nonpos (q : ℚ) (h : q < 0) : jsRound q ≤ 0 := by
  rw [jsRound]
  have h1 : q + 1/2 < ((1 : ℤ) : ℚ) := by push_cast; linarith
  have := Int.floor_lt.mpr h1
  omega

/-- An expiry strictly before the current time rounds to a day count of at
most zero. -/
theorem certExpiryDays_nonpos (na now : Int) (h : na < now) :
    certExpiryDays na now ≤ 0 := by
  apply jsRound_nonpos
  have hlt : (na : ℚ) < (now : ℚ) := by exact_mod_cast h
  have hnum : (na : ℚ) / 1000 - (now : ℚ) / 1000 < 0 := by linarith
  exact div_neg_of_neg_of_pos hnum (by norm_num)

/-- Evaluation of mapSsl on a payload with one endpoint carrying a nonempty
grade and a nonzero certificate expiry: the grade finding always appears, and
the expiry finding appears exactly when the rounded day count is below 30. -/
theorem mapSsl_single_cert (now na : Int) (g : String) (hg : g ≠ "") (h0 : na ≠ 0) :
    mapSsl now ⟨none, none, some [⟨some g, some ⟨some ⟨some na⟩⟩⟩]⟩ =
      if certExpiryDays na now < 30 then
        [sslGradeFinding g, certExpiryFinding (certExpiryDays na now)]
      else [sslGradeFinding g] := by
  unfold mapSsl
  simp only [Option.getD_some, List.head?_cons, jsOrStr]
  rw [if_neg hg, if_neg h0]
  split <;> simp

/-- Membership in a conditional singleton. -/
theorem mem_ite_singleton {α : Type} (a x : α) (c : Prop) [Decidable c] :
    a ∈ (if c then [x] else ([] : List α)) ↔ c ∧ a = x := by
  split
  · simp_all
  · simp_all

/-- The fallback title of generateFindings never coincides with the port 80
rule title: both have length 24 with an empty interpolation, and the literals
differ. -/
theorem noHeuristic_title_ne (s : String) :
    "No heuristic issues for " ++ s ≠ "Default port 80 detected" := by
  intro h
  have hl := congrArg String.length h
  rw [String.length_append] at hl
  have h24 : ("No heuristic issues for " : String).length = 24 := rfl
  have h24b : ("Default port 80 detected" : String).length = 24 := rfl
  rw [h24, h24b] at hl
  have hs0 : s.length = 0 := by omega
  have hse : s = "" := String.ext (List.length_eq_zero.mp hs0)
  subst hse
  exact absurd h (by decide)

/-- Unfolding the poll loop on a READY response. -/
theorem sslLabsLoop_ready (resp : Nat → SslData) (i f : Nat)
    (h : (resp i).status = some "READY") :
    sslLabsLoop resp i (f + 1) = (.ok (resp i), 1) := by
  unfold sslLabsLoop
  simp [h]

/-- Unfolding the poll loop on an ERROR-class response. -/
theorem sslLabsLoop_error (resp : Nat → SslData) (i f : Nat)
    (hr : (resp i).status ≠ some "READY")
    (h : (resp i).status = some "ERROR" ∨ (resp i).status = some "DNS") :
    sslLabsLoop resp i (f + 1) = (.error (.remote (sslStatusMessageOr (resp i))), 1) := by
  unfold sslLabsLoop
  rw [if_neg hr, if_pos h]

/-- Unfolding the poll loop on a pending response. -/
theorem sslLabsLoop_pending (resp : Nat → SslData) (i f : Nat)
    (h : isPendingStatus (resp i) = true) :
    sslLabsLoop resp i (f + 1) =
      ((sslLabsLoop resp (i + 1) f).1, (sslLabsLoop resp (i + 1) f).2 + 1) := by
  rw [isPendingStatus, Bool.and_eq_true, Bool.and_eq_true] at h
  obtain ⟨⟨h1, h2⟩, h3⟩ := h
  rw [bne_iff_ne] at h1 h2 h3
  conv_lhs => rw [sslLabsLoop]
  dsimp only
  rw [if_neg h1, if_neg (by rintro (hc | hc) <;> [exact h2 hc; exact h3 hc])]

/-- The poll count never exceeds the fuel. -/
theorem sslLabsLoop_attempts_le (resp : Nat → SslData) :
    ∀ f i, (sslLabsLoop resp i f).2 ≤ f := by
  intro f
  induction f with
  | zero => intro i; simp [sslLabsLoop]
  | succ f ih =>
    intro i
    unfold sslLabsLoop
    dsimp only
    split
    · simp
    · split
      · simp
      · have := ih (i + 1)
        simp only []
        omega

/-- Skipping j consecutive pending responses advances the loop index by j,
removes j units of fuel and adds j to the poll count. -/
theorem sslLabsLoop_shift (resp : Nat → SslData) :
    ∀ j f i, j ≤ f → (∀ k, k < j → isPendingStatus (resp (i + k)) = true) →
      sslLabsLoop resp i f =
        ((sslLabsLoop resp (i + j) (f - j)).1, (sslLabsLoop resp (i + j) (f - j)).2 + j) := by
  intro j
  induction j with
  | zero => intro f i _ _; simp
  | succ j ih =>
    intro f i hjf hp
    obtain ⟨f', rfl⟩ : ∃ f', f = f' + 1 := ⟨f - 1, by omega⟩
    rw [sslLabsLoop_pending resp i f' (by simpa using hp 0 (by omega))]
    rw [ih f' (i + 1) (by omega)
      (fun k hk => by
        have := hp (k + 1) (by omega)
        rwa [show i + (k + 1) = i + 1 + k by omega] at this)]
    rw [show i + 1 + j = i + (j + 1) by omega,
      show f' + 1 - (j + 1) = f' - j by omega, Nat.add_assoc]

/-- When the Shodan contribution settles to an ok list, the advanced scan as
a whole returns ok with a non-empty finding list. -/
theorem runAdvancedScan_ok_of_shodan_ok (now : Int) (cfg : Config)
    (sh : Settled SecHeadersData) (ssl : Settled SslData) (shdNet : Settled ShodanData)
    (snap : Snapshot) (raw : String) (f3 : List Finding)
    (h : (match shodanSettled cfg shdNet with
          | Settled.fulfilled od => mapShodan od
          | Settled.rejected => Except.ok []) = Except.ok f3) :
    ∃ l, runAdvancedScan now cfg sh ssl shdNet snap raw = .ok l ∧ l ≠ [] := by
  unfold runAdvancedScan
  dsimp only
  rw [h]
  dsimp only
  split
  · exact ⟨snapFindings raw snap, rfl, snapFindings_ne_nil raw snap⟩
  · next hne => exact ⟨_, rfl, hne⟩

/-- With a truthy Shodan key the third allSettled slot never throws: a
fulfilled call maps through mapShodan on a defined payload and a rejected
call is skipped. -/
theorem shodanSettled_ok_of_truthy (cfg : Config) (shdNet : Settled ShodanData)
    (hk : jsTruthy cfg.SHODAN_KEY = true) :
    ∃ f3, (match shodanSettled cfg shdNet with
           | Settled.fulfilled od => mapShodan od
           | Settled.rejected => Except.ok []) = Except.ok f3 := by
  unfold shodanSettled
  rw [if_pos hk]
  cases shdNet with
  | fulfilled d => exact mapShodan_some_ok d
  | rejected => exact ⟨[], rfl⟩

/-! Claim theorems. -/

/-- Claim C1: the spec states that for every non-empty target and both scan
profiles the scan returns a non-empty finding sequence and never throws, with
failures absorbed into skipped contributions, synthetic findings or the
heuristic fallback. The quick profile satisfies this, and a full scan with a
configured (truthy) exposure key also returns a non-empty list; but a full
scan with the key unset crashes with a TypeError inside mapShodan, because
the allSettled placeholder Promise.resolve of a status rejected object is
reported as fulfilled and its missing data field is dereferenced, so the scan
rejects instead of returning findings and the claim fails on the code. -/
theorem C1_scan_contract :
    (∀ (now : Int) (cfg : Config) (raw profile : String)
      (sh : Settled SecHeadersData) (ssl : Settled SslData)
      (shdNet : Settled ShodanData) (snap : Snapshot),
      profile ≠ "full" →
      ∃ l, scan now cfg raw profile sh ssl shdNet snap = .ok l ∧ l ≠ []) ∧
    (scan 0 ⟨none⟩ "example.com" "full" .rejected .rejected .rejected (.err "ENOTFOUND")
      = .error typeErrorUndefinedPorts) ∧
    (∀ (now : Int) (k raw : String) (sh : Settled SecHeadersData)
      (ssl : Settled SslData) (shdNet : Settled ShodanData) (snap : Snapshot),
      jsTruthy (some k) = true →
      ∃ l, scan now ⟨some k⟩ raw "full" sh ssl shdNet snap = .ok l ∧ l ≠ []) := by
  refine ⟨?_, rfl, ?_⟩
  · intro now cfg raw profile sh ssl shdNet snap hp
    refine ⟨runQuickScan raw snap, ?_, snapFindings_ne_nil raw snap⟩
    simp [scan, hp]
  · intro now k raw sh ssl shdNet snap hk
    obtain ⟨f3, hf3⟩ := shodanSettled_ok_of_truthy ⟨some k⟩ shdNet hk
    obtain ⟨l, hl, hlne⟩ :=
      runAdvancedScan_ok_of_shodan_ok now ⟨some k⟩ sh ssl shdNet snap raw f3 hf3
    exact ⟨l, by simpa [scan] using hl, hlne⟩

/-- Witness for claim C1 instantiating both hypothetical parts: the quick
profile on an unreachable target yields an ok non-empty list, and a full
profile with a configured key does too. -/
theorem C1_scan_contract_witness :
    (∃ l, scan 0 ⟨none⟩ "example.com" "quick" .rejected .rejected .rejected
        (.err "ENOTFOUND") = .ok l ∧ l ≠ []) ∧
    (∃ l, scan 0 ⟨some "k"⟩ "example.com" "full" .rejected .rejected .rejected
        (.err "ENOTFOUND") = .ok l ∧ l ≠ []) :=
  ⟨C1_scan_contract.1 0 ⟨none⟩ "example.com" "quick" .rejected .rejected .rejected
      (.err "ENOTFOUND") (by decide),
   C1_scan_contract.2.2 0 "k" "example.com" .rejected .rejected .rejected
      (.err "ENOTFOUND") (by decide)⟩

/-- Claim C2: the spec states that with the exposure credential absent the
adapter reports a not-configured failure, contributes nothing and the full
scan completes normally. In the code the placeholder resolved object is
reported by allSettled as fulfilled, mapShodan is applied to an undefined
data field and throws, and the whole full scan rejects for every combination
of the other adapter outcomes, so the scan never completes normally without
the key. -/
theorem C2_missing_key_crashes_full_scan (now : Int) (sh : Settled SecHeadersData)
    (ssl : Settled SslData) (shdNet : Settled ShodanData) (snap : Snapshot)
    (raw : String) :
    runAdvancedScan now ⟨none⟩ sh ssl shdNet snap raw = .error typeErrorUndefinedPorts := by
  rfl

/-- Claim C3 counterexample: with the exposure adapter in its not-configured
state (key unset), a fulfilled header-grading payload with grade B and a
rejected TLS-grading adapter, the merged scan crashes, so the header-grading
findings, which are non-empty, are suppressed, refuting the claim that no
provider outcome combination suppresses another provider contribution. -/
theorem C3_counterexample :
    mapSecurityHeaders shGradeB ≠ [] ∧
    runAdvancedScan 0 ⟨none⟩ (.fulfilled shGradeB) .rejected .rejected
      (.err "ENOTFOUND") "example.com" = .error typeErrorUndefinedPorts := by
  exact ⟨by decide, rfl⟩

/-- Claim C3 amended: provided the exposure key is configured (truthy), a
TLS-grading failure never suppresses the header-grading contribution: the
merged result is ok and contains every finding mapped from the fulfilled
header-grading payload, whatever the Shodan outcome, probe outcome and
target. -/
theorem C3_header_findings_survive_tls_failure (now : Int) (k : String)
    (d : SecHeadersData) (shdNet : Settled ShodanData) (snap : Snapshot)
    (raw : String) (hk : jsTruthy (some k) = true) :
    ∃ l, runAdvancedScan now ⟨some k⟩ (.fulfilled d) .rejected shdNet snap raw = .ok l ∧
      ∀ f ∈ mapSecurityHeaders d, f ∈ l := by
  obtain ⟨f3, hf3⟩ := shodanSettled_ok_of_truthy ⟨some k⟩ shdNet hk
  unfold runAdvancedScan
  dsimp only
  rw [hf3]
  dsimp only
  split
  · next hempty =>
    have hnil : mapSecurityHeaders d = [] :=
      (List.append_eq_nil.mp (List.append_eq_nil.mp hempty).1).1
    refine ⟨snapFindings raw snap, rfl, ?_⟩
    intro f hf
    rw [hnil] at hf
    cases hf
  · refine ⟨_, rfl, ?_⟩
    intro f hf
    exact List.mem_append_left _ (List.mem_append_left _ hf)

/-- Witness for the amended claim C3 at a concrete configured key, a grade B
header payload, a rejected Shodan call and a failed probe. -/
theorem C3_header_findings_survive_tls_failure_witness :
    jsTruthy (some "k") = true ∧
    ∃ l, runAdvancedScan 0 ⟨some "k"⟩ (.fulfilled shGradeB) .rejected .rejected
        (.err "ENOTFOUND") "example.com" = .ok l ∧
      ∀ f ∈ mapSecurityHeaders shGradeB, f ∈ l :=
  ⟨by decide,
   C3_header_findings_survive_tls_failure 0 "k" shGradeB .rejected
     (.err "ENOTFOUND") "example.com" (by decide)⟩

/-- Claim C4: the SSL Labs poll loop always terminates within the attempt
budget of 12 polls; when the responses are pending up to some attempt j, a
READY response at j yields the payload after j + 1 polls, an ERROR-class
response at j yields an immediate remote error after j + 1 polls with no
retry, and a run that never leaves the pending states ends timed out after
exactly 12 polls. -/
theorem C4_poll_budget (resp : Nat → SslData) :
    (sslLabsScan resp).2 ≤ 12 ∧
    (∀ j, j < 12 → (∀ i, i < j → isPendingStatus (resp i) = true) →
      ((resp j).status = some "READY" →
        sslLabsScan resp = (.ok (resp j), j + 1)) ∧
      ((resp j).status = some "ERROR" ∨ (resp j).status = some "DNS" →
        sslLabsScan resp = (.error (.remote (sslStatusMessageOr (resp j))), j + 1))) ∧
    ((∀ i, i < 12 → isPendingStatus (resp i) = true) →
      sslLabsScan resp = (.error .timedOut, 12)) := by
  refine ⟨sslLabsLoop_attempts_le resp 12 0, ?_, ?_⟩
  · intro j hj hp
    have hshift := sslLabsLoop_shift resp j 12 0 (by omega)
      (fun k hk => by simpa using hp k hk)
    rw [show (0 : Nat) + j = j by omega] at hshift
    obtain ⟨m, hm⟩ : ∃ m, 12 - j = m + 1 := ⟨12 - j - 1, by omega⟩
    rw [hm] at hshift
    constructor
    · intro hready
      rw [sslLabsScan, hshift, sslLabsLoop_ready resp j m hready]
      simp [Nat.add_comm]
    · intro herr
      have hr : (resp j).status ≠ some "READY" := by
        rcases herr with h | h <;> rw [h] <;> decide
      rw [sslLabsScan, hshift, sslLabsLoop_error resp j m hr herr]
      simp [Nat.add_comm]
  · intro hp
    have hshift := sslLabsLoop_shift resp 12 12 0 (by omega)
      (fun k hk => by simpa using hp k hk)
    rw [sslLabsScan, hshift]
    rfl

/-- Witness for claim C4: a response sequence that is pending once and READY
on the second poll makes the scan return the READY payload after exactly two
polls. -/
theorem C4_poll_budget_witness :
    isPendingStatus (pollRespEx 0) = true ∧
    sslLabsScan pollRespEx = (.ok readySslData, 2) := by
  refine ⟨by decide, ?_⟩
  have h := ((C4_poll_budget pollRespEx).2.1 1 (by omega)
    (fun i hi => by
      have h0 : i = 0 := by omega
      subst h0
      decide)).1 (by decide)
  exact h

/-- Claim C5: the shared grade to severity table maps A+ and A to low, B and
C to medium, and every other value, including an absent grade, to high; it is
the mapping used for the overall grade finding of both the header-grading and
the TLS-grading normalizer, as the two concrete D-grade evaluations show. -/
theorem C5_grade_severity_table :
    gradeToSeverity (some "A+") = "low" ∧ gradeToSeverity (some "A") = "low" ∧
    gradeToSeverity (some "B") = "medium" ∧ gradeToSeverity (some "C") = "medium" ∧
    gradeToSeverity none = "high" ∧
    (∀ g : String, g ≠ "A+" → g ≠ "A" → g ≠ "B" → g ≠ "C" →
      gradeToSeverity (some g) = "high") ∧
    mapSecurityHeaders ⟨some "D", none, none⟩ =
      [⟨"high", "SecurityHeaders grade D",
        "Add or strengthen headers to improve grade."⟩] ∧
    mapSsl 0 ⟨none, none, some [⟨some "D", none⟩]⟩ = [sslGradeFinding "D"] := by
  refine ⟨rfl, rfl, rfl, rfl, rfl, ?_, by decide, by decide⟩
  intro g h1 h2 h3 h4
  simp [gradeToSeverity, h1, h2, h3, h4]

/-- Witness for claim C5 at the unlisted grade T. -/
theorem C5_grade_severity_table_witness : gradeToSeverity (some "T") = "high" :=
  C5_grade_severity_table.2.2.2.2.2.1 "T" (by decide) (by decide) (by decide)
    (by decide)

/-- Claim C6 counterexample: at current time 0 a certificate expiring at
epoch millisecond 2570400000 is 29.75 days away, strictly under 30 days, yet
the code emits no expiry finding because the day count rounds to 30; so the
claim trigger stated in wall-clock terms fails on the code. -/
theorem C6_counterexample :
    (2570400000 : Int) < 30 * 86400000 ∧
    mapSsl 0 ⟨none, none, some [ep2975]⟩ = [sslGradeFinding "A"] := by
  refine ⟨by decide, ?_⟩
  have h30 : certExpiryDays 2570400000 0 = 30 := by
    rw [certExpiryDays, jsRound, Int.floor_eq_iff]
    norm_num
  have h := mapSsl_single_cert 0 2570400000 "A" (by decide) (by decide)
  rw [h30] at h
  simpa [ep2975] using h

/-- Claim C6 amended: for a payload with one endpoint, a nonempty grade and a
nonzero certificate expiry, the TLS normalizer emits exactly one additional
medium expiry finding stating the rounded whole-day count if and only if that
rounded count is below 30 (equivalently, the expiry is less than 29.5 days
away); when the rounded count is at least 30, as for an expiry 400 days away,
no expiry finding is emitted. -/
theorem C6_expiry_iff_rounded_below_30 (now na : Int) (g : String)
    (hg : g ≠ "") (h0 : na ≠ 0) :
    (certExpiryDays na now < 30 →
      mapSsl now ⟨none, none, some [⟨some g, some ⟨some ⟨some na⟩⟩⟩]⟩ =
        [sslGradeFinding g, certExpiryFinding (certExpiryDays na now)]) ∧
    (30 ≤ certExpiryDays na now →
      mapSsl now ⟨none, none, some [⟨some g, some ⟨some ⟨some na⟩⟩⟩]⟩ =
        [sslGradeFinding g]) := by
  rw [mapSsl_single_cert now na g hg h0]
  constructor
  · intro h
    rw [if_pos h]
  · intro h
    rw [if_neg (by omega)]

/-- Witness for the amended claim C6: an expiry 10 days away yields the
finding stating 10 days, an expiry 400 days away yields none. -/
theorem C6_expiry_iff_rounded_below_30_witness :
    certExpiryDays 864000000 0 = 10 ∧
    mapSsl 0 ⟨none, none, some [⟨some "A", some ⟨some ⟨some 864000000⟩⟩⟩]⟩ =
      [sslGradeFinding "A", certExpiryFinding 10] ∧
    certExpiryDays 34560000000 0 = 400 ∧
    mapSsl 0 ⟨none, none, some [⟨some "A", some ⟨some ⟨some 34560000000⟩⟩⟩]⟩ =
      [sslGradeFinding "A"] := by
  have h10 : certExpiryDays 864000000 0 = 10 := by
    rw [certExpiryDays, jsRound, Int.floor_eq_iff]
    norm_num
  have h400 : certExpiryDays 34560000000 0 = 400 := by
    rw [certExpiryDays, jsRound, Int.floor_eq_iff]
    norm_num
  refine ⟨h10, ?_, h400, ?_⟩
  · have h := (C6_expiry_iff_rounded_below_30 0 864000000 "A" (by decide)
      (by decide)).1 (by rw [h10]; norm_num)
    rwa [h10] at h
  · exact (C6_expiry_iff_rounded_below_30 0 34560000000 "A" (by decide)
      (by decide)).2 (by rw [h400]; norm_num)

/-- Claim C7: the heuristic header rule engine never returns an empty list,
and for every snapshot where none of the fixed header rules fires (the three
protective headers present and truthy, no Server banner) it returns exactly
the single low no-issues finding; the engine is a pure function over its
inputs evaluated in fixed table order, so its output is deterministic. -/
theorem C7_heuristic_engine_total (raw : String) (hs : List (String × String)) :
    basicHeaderRules raw hs ≠ [] ∧
    (jsTruthy (jsLookup (lowerKeys hs) "strict-transport-security") = true →
     jsTruthy (jsLookup (lowerKeys hs) "content-security-policy") = true →
     jsTruthy (jsLookup (lowerKeys hs) "x-frame-options") = true →
     jsTruthy (jsLookup (lowerKeys hs) "server") = false →
     basicHeaderRules raw hs = [noIssuesFinding raw]) := by
  refine ⟨basicHeaderRules_ne_nil raw hs, ?_⟩
  intro h1 h2 h3 h4
  simp [basicHeaderRules, h1, h2, h3, h4]

/-- Witness for claim C7 on a header list with all three protective headers
present (one with mixed casing) and no Server banner. -/
theorem C7_heuristic_engine_total_witness :
    jsTruthy (jsLookup (lowerKeys goodHeaders) "x-frame-options") = true ∧
    basicHeaderRules "https://example.com" goodHeaders =
      [noIssuesFinding "https://example.com"] :=
  ⟨by decide,
   (C7_heuristic_engine_total "https://example.com" goodHeaders).2
     (by decide) (by decide) (by decide) (by decide)⟩

/-- Claim C8 counterexample: the snapshot constructor stores the transport
header list verbatim, so a snapshot built from a response whose header name
is the mixed-case Server still holds that exact key and a direct lowercase
lookup over the stored entries fails; header names are therefore not
case-normalized at snapshot construction. -/
theorem C8_counterexample :
    getHeaderSnapshot (.ok (200, [("Server", "nginx")])) =
      .ok 200 [("Server", "nginx")] ∧
    jsLookup [("Server", "nginx")] "server" = none :=
  ⟨rfl, by decide⟩

/-- Claim C8 amended: the lowercase normalization is established by the
consuming rule engine, not at snapshot construction: basicHeaderRules
lowercases the header names before every lookup, so its output depends only
on the lowercased entry list and any two sent casings with the same
lowercased form are indistinguishable downstream. -/
theorem C8_consumer_normalizes_casing (raw : String)
    (hs1 hs2 : List (String × String)) (h : lowerKeys hs1 = lowerKeys hs2) :
    basicHeaderRules raw hs1 = basicHeaderRules raw hs2 := by
  unfold basicHeaderRules
  rw [h]

/-- Witness for the amended claim C8: the mixed-case and lowercase Server
headers produce identical findings. -/
theorem C8_consumer_normalizes_casing_witness :
    lowerKeys [("Server", "nginx")] = lowerKeys [("server", "nginx")] ∧
    basicHeaderRules "example.com" [("Server", "nginx")] =
      basicHeaderRules "example.com" [("server", "nginx")] :=
  ⟨by decide, C8_consumer_normalizes_casing "example.com" _ _ (by decide)⟩

/-- Claim C9 counterexample: the target https://example.com:80 has scheme
https and explicit port 80, and the port 80 rule fires (it is the only rule
that does), contradicting the claim that the rule never fires for an https
target. -/
theorem C9_counterexample :
    generateFindings "https://example.com:80" httpsPort80 = [port80Finding] := by
  decide

/-- Claim C9 amended: the default port 80 rule is not scheme-gated: it fires
exactly when the parsed port is the string 80, whatever the scheme, or when
no port was parsed and the scheme is http. -/
theorem C9_port_rule_not_scheme_gated (target : String) (p : ParsedUrl) :
    port80Finding ∈ generateFindings target p ↔
      (p.port = some "80" ∨ (jsTruthy p.port = false ∧ p.protocol = some "http:")) := by
  have hmem : port80Finding ∈ genRuleFindings target p ↔
      (p.port = some "80" ∨ (jsTruthy p.port = false ∧ p.protocol = some "http:")) := by
    unfold genRuleFindings
    simp only [List.mem_append, mem_ite_singleton]
    constructor
    · rintro (((⟨_, h⟩ | ⟨_, h⟩) | ⟨hc, _⟩) | ⟨_, h⟩)
      · exact absurd h (by decide)
      · exact absurd h (by decide)
      · exact hc
      · exact absurd h (by decide)
    · intro hc
      exact Or.inl (Or.inr ⟨hc, trivial⟩)
  unfold generateFindings
  split
  · next hnil =>
    rw [hnil] at hmem
    simp only [List.not_mem_nil, false_iff] at hmem
    constructor
    · intro hin
      exfalso
      have heq : port80Finding =
          noHeuristicFinding (jsOrStr p.hostname (firstToken (trimStr target))) := by
        simpa using hin
      have ht := congrArg Finding.title heq
      exact noHeuristic_title_ne _ ht.symm
    · intro hc
      exact absurd hc hmem
  · next => exact hmem

/-- Claim C10: for a payload with one endpoint, a nonempty grade and a
nonzero certificate expiry strictly in the past, the TLS normalizer still
emits the medium expiry finding and its day count is zero or negative, since
the only guard is that the rounded count is below 30; and a payload with an
absent or empty endpoints list yields no findings at all. -/
theorem C10_expired_cert_and_empty_endpoints (now na : Int) (g : String)
    (hg : g ≠ "") (h0 : na ≠ 0) (hpast : na < now) :
    (certExpiryDays na now ≤ 0 ∧
      mapSsl now ⟨none, none, some [⟨some g, some ⟨some ⟨some na⟩⟩⟩]⟩ =
        [sslGradeFinding g, certExpiryFinding (certExpiryDays na now)]) ∧
    (∀ st sm, mapSsl now ⟨st, sm, none⟩ = [] ∧ mapSsl now ⟨st, sm, some []⟩ = []) := by
  refine ⟨⟨certExpiryDays_nonpos na now hpast, ?_⟩, ?_⟩
  · rw [mapSsl_single_cert now na g hg h0,
      if_pos (by have := certExpiryDays_nonpos na now hpast; omega)]
  · intro st sm
    exact ⟨rfl, rfl⟩

/-- Witness for claim C10: a certificate that expired half a day before the
current time still produces the expiry finding with a nonpositive day count,
and the empty-endpoints payloads produce nothing. -/
theorem C10_expired_cert_and_empty_endpoints_witness :
    (43200000 : Int) ≠ 0 ∧ (43200000 : Int) < 86400000 ∧
    (certExpiryDays 43200000 86400000 ≤ 0 ∧
      mapSsl 86400000 ⟨none, none, some [⟨some "A", some ⟨some ⟨some 43200000⟩⟩⟩]⟩ =
        [sslGradeFinding "A", certExpiryFinding (certExpiryDays 43200000 86400000)]) ∧
    (mapSsl 86400000 ⟨none, none, none⟩ = [] ∧
      mapSsl 86400000 ⟨none, none, some []⟩ = []) := by
  have h := C10_expired_cert_and_empty_endpoints 86400000 43200000 "A"
    (by decide) (by decide) (by decide)
  exact ⟨by decide, by decide, h.1, h.2 none none⟩

end ISectech
